import Mathlib

/-!
# Verification of the `upower-dbus` client library

Shallow embedding of `src/lib.rs`: a thin D-Bus client that reads power
status from the UPower system service.  The external message bus is
modelled as an oracle mapping each issued request to a reply; every
operation of the client returns both its result and the ordered list of
requests it issued on the bus, so that round-trip counts, addressing and
timeouts are visible to the theorems.

Doubles are modelled as `Rat`: the library performs no arithmetic on
property values (pure pass-through), so exact rationals are a faithful
carrier for the reply payloads.
-/

set_option autoImplicit false

/-- A value carried in a D-Bus message argument: the three wire types this
client touches (booleans, doubles, object paths). -/
inductive DbusValue where
  | boolV (b : Bool)
  | doubleV (q : Rat)
  | pathV (p : String)
deriving DecidableEq

/-- One request issued on the bus: destination service, object path,
interface, member (method name or property name), and the timeout the
client attached to the call. -/
structure BusRequest where
  dest : String
  path : String
  iface : String
  member : String
  timeout : Int
deriving DecidableEq

/-- The bus oracle: how the remote side answers each request.  An `error`
answer models an error reply, an elapsed timeout, or a reply the transport
already rejected; an `ok` answer carries the reply's argument list. -/
def Bus := BusRequest → Except String (List DbusValue)

/-- The error enum `UPowerError` from `src/lib.rs`: `MethodCall` (a method-call message
could not be created), `Dbus` (an underlying dbus error, wrapped as a
display string), `NoDisplayDevice`. -/
inductive UPowerError where
  | MethodCall (why : String)
  | Dbus (why : String)
  | NoDisplayDevice
deriving DecidableEq

/-- The `impl From<dbus::Error> for UPowerError` conversion: the `?` operator on a dbus
result wraps the error's description in the `Dbus` variant. -/
def mapDbus {α : Type} : Except String α → Except UPowerError α
  | .error why => .error (.Dbus why)
  | .ok a => .ok a

/-- A method-call message before it is sent (dbus crate `Message`). -/
structure MethodMsg where
  dest : String
  path : String
  iface : String
  member : String
deriving DecidableEq

/-- Modelled from the dbus crate: `Message::new_method_call` validates its
names and returns `Err(String)` when one is syntactically invalid (the
empty string being the basic invalid case); otherwise it builds the
message. -/
def Message.new_method_call (dest path iface member : String) :
    Except String MethodMsg :=
  if dest = "" ∨ path = "" ∨ iface = "" ∨ member = "" then
    .error "invalid name"
  else
    .ok ⟨dest, path, iface, member⟩

/-- Modelled from the dbus crate: `Message::get1::<Path>` decodes the first
reply argument as an object path, returning `None` when the reply carries
no decodable path in that position (the "no device" sentinel outcome). -/
def Message.get1Path (args : List DbusValue) : Option String :=
  match args.head? with
  | some (.pathV p) => some p
  | _ => none

/-- Modelled from the dbus crate: `Connection::send_with_reply_and_block`
issues exactly one request on the bus with the given timeout and returns
the reply (or the transport error), together with the request it issued. -/
def Connection.send_with_reply_and_block (conn : Bus) (msg : MethodMsg)
    (timeout : Int) : Except String (List DbusValue) × List BusRequest :=
  let req : BusRequest := ⟨msg.dest, msg.path, msg.iface, msg.member, timeout⟩
  (conn req, [req])

/-- The addressing triple `ConnPath`: a connection together with a destination, an object path
and the timeout, as produced by `Connection::with_path`. -/
structure ConnPath where
  conn : Bus
  dest : String
  path : String
  timeout : Int

/-- Modelled from the dbus crate (`Properties::get::<bool>`): one
property-read round trip on the object, decoded as a boolean; an error
reply, a timeout, or a reply that is not a single boolean all surface as
the transport error string. -/
def ConnPath.getBool (cp : ConnPath) (iface prop : String) :
    Except String Bool × List BusRequest :=
  let req : BusRequest := ⟨cp.dest, cp.path, iface, prop, cp.timeout⟩
  let r : Except String Bool :=
    match cp.conn req with
    | .error e => .error e
    | .ok [DbusValue.boolV b] => .ok b
    | .ok _ => .error "reply was not a single boolean"
  (r, [req])

/-- Modelled from the dbus crate (`Properties::get::<f64>`): one
property-read round trip on the object, decoded as a double. -/
def ConnPath.getDouble (cp : ConnPath) (iface prop : String) :
    Except String Rat × List BusRequest :=
  let req : BusRequest := ⟨cp.dest, cp.path, iface, prop, cp.timeout⟩
  let r : Except String Rat :=
    match cp.conn req with
    | .error e => .error e
    | .ok [DbusValue.doubleV q] => .ok q
    | .ok _ => .error "reply was not a single double"
  (r, [req])

/-- The client struct from `src/lib.rs`: one open bus connection and the
timeout in milliseconds. -/
structure UPower where
  connection : Bus
  timeout : Int

/-- Constructor `UPower::new(timeout)`: opens the system bus.  The environment is the
outcome of `Connection::get_private(BusType::System)`: either a live bus
or the dbus error.  On failure the `?` operator converts the dbus error
via `From`, so construction fails with the `Dbus` variant; on success the
client stores the connection and the timeout. -/
def UPower.new (sys : Except String Bus) (timeout : Int) :
    Except UPowerError UPower :=
  match sys with
  | .error why => .error (.Dbus why)
  | .ok connection => .ok ⟨connection, timeout⟩

/-- Method `UPower::connection_path`: addresses an object of the
`org.freedesktop.UPower` service at the given path, with the client's
stored timeout. -/
def UPower.connection_path (u : UPower) (path : String) : ConnPath :=
  ⟨u.connection, "org.freedesktop.UPower", path, u.timeout⟩

/-- Method `UPower::get_display_device`: builds the `GetDisplayDevice` method
call (a construction failure becomes `MethodCall`), sends it blocking with
the stored timeout (a transport failure becomes `Dbus` via `?`), and
decodes the reply's first argument as an optional object path. -/
def UPower.get_display_device (u : UPower) :
    Except UPowerError (Option String) × List BusRequest :=
  match Message.new_method_call "org.freedesktop.UPower"
      "/org/freedesktop/UPower" "org.freedesktop.UPower" "GetDisplayDevice" with
  | .error why => (.error (.MethodCall why), [])
  | .ok msg =>
    let rl := Connection.send_with_reply_and_block u.connection msg u.timeout
    match rl.1 with
    | .error why => (.error (.Dbus why), rl.2)
    | .ok args => (.ok (Message.get1Path args), rl.2)

/-- Method `UPower::on_battery`: reads the boolean `OnBattery` property from the
root UPower object `/org/freedesktop/UPower` on interface
`org.freedesktop.UPower`. -/
def UPower.on_battery (u : UPower) :
    Except UPowerError Bool × List BusRequest :=
  let r := (u.connection_path "/org/freedesktop/UPower").getBool
    "org.freedesktop.UPower" "OnBattery"
  (mapDbus r.1, r.2)

/-- The `dev =>` arm of the `device_property!` macro at a double-typed
property: resolve the display device, fail with `NoDisplayDevice` when
resolution yields `None`, otherwise read the property from the resolved
device path on interface `org.freedesktop.UPower.Device`. -/
def UPower.device_property_dev_double (u : UPower) (prop : String) :
    Except UPowerError Rat × List BusRequest :=
  let gd := u.get_display_device
  match gd.1 with
  | .error e => (.error e, gd.2)
  | .ok none => (.error .NoDisplayDevice, gd.2)
  | .ok (some device) =>
    let r := (u.connection_path device).getDouble
      "org.freedesktop.UPower.Device" prop
    (mapDbus r.1, gd.2 ++ r.2)

/-- The `dev =>` arm of the `device_property!` macro at a boolean-typed
property. -/
def UPower.device_property_dev_bool (u : UPower) (prop : String) :
    Except UPowerError Bool × List BusRequest :=
  let gd := u.get_display_device
  match gd.1 with
  | .error e => (.error e, gd.2)
  | .ok none => (.error .NoDisplayDevice, gd.2)
  | .ok (some device) =>
    let r := (u.connection_path device).getBool
      "org.freedesktop.UPower.Device" prop
    (mapDbus r.1, gd.2 ++ r.2)

/-- The `path =>` arm of the `device_property!` macro at a double-typed
property: read the property directly from the caller-supplied path, no
resolution step. -/
def UPower.device_property_path_double (u : UPower) (path prop : String) :
    Except UPowerError Rat × List BusRequest :=
  let r := (u.connection_path path).getDouble
    "org.freedesktop.UPower.Device" prop
  (mapDbus r.1, r.2)

/-- The `path =>` arm of the `device_property!` macro at a boolean-typed
property. -/
def UPower.device_property_path_bool (u : UPower) (path prop : String) :
    Except UPowerError Bool × List BusRequest :=
  let r := (u.connection_path path).getBool
    "org.freedesktop.UPower.Device" prop
  (mapDbus r.1, r.2)

/-- Method `UPower::get_percentage`. -/
def UPower.get_percentage (u : UPower) :
    Except UPowerError Rat × List BusRequest :=
  u.device_property_dev_double "Percentage"

/-- Method `UPower::get_percentage_of`. -/
def UPower.get_percentage_of (u : UPower) (path : String) :
    Except UPowerError Rat × List BusRequest :=
  u.device_property_path_double path "Percentage"

/-- Method `UPower::get_energy`. -/
def UPower.get_energy (u : UPower) :
    Except UPowerError Rat × List BusRequest :=
  u.device_property_dev_double "Energy"

/-- Method `UPower::get_energy_of`. -/
def UPower.get_energy_of (u : UPower) (path : String) :
    Except UPowerError Rat × List BusRequest :=
  u.device_property_path_double path "Energy"

/-- Method `UPower::get_energy_full`. -/
def UPower.get_energy_full (u : UPower) :
    Except UPowerError Rat × List BusRequest :=
  u.device_property_dev_double "EnergyFull"

/-- Method `UPower::get_energy_full_of`. -/
def UPower.get_energy_full_of (u : UPower) (path : String) :
    Except UPowerError Rat × List BusRequest :=
  u.device_property_path_double path "EnergyFull"

/-- Method `UPower::get_online`. -/
def UPower.get_online (u : UPower) :
    Except UPowerError Bool × List BusRequest :=
  u.device_property_dev_bool "Online"

/-- Method `UPower::get_online_of`. -/
def UPower.get_online_of (u : UPower) (path : String) :
    Except UPowerError Bool × List BusRequest :=
  u.device_property_path_bool path "Online"

/-! ## Canonical requests, auxiliary predicates and stub buses -/

/-- The request issued by the `GetDisplayDevice` method call: root UPower
object, at timeout `t`. -/
def gddReq (t : Int) : BusRequest :=
  ⟨"org.freedesktop.UPower", "/org/freedesktop/UPower",
   "org.freedesktop.UPower", "GetDisplayDevice", t⟩

/-- The request issued by the `OnBattery` property read: root UPower
object, root interface, at timeout `t`. -/
def onBatteryReq (t : Int) : BusRequest :=
  ⟨"org.freedesktop.UPower", "/org/freedesktop/UPower",
   "org.freedesktop.UPower", "OnBattery", t⟩

/-- The request issued by a device property read: object `path`, interface
`org.freedesktop.UPower.Device`, property `prop`, at timeout `t`. -/
def devPropReq (path prop : String) (t : Int) : BusRequest :=
  ⟨"org.freedesktop.UPower", path, "org.freedesktop.UPower.Device", prop, t⟩

/-- Holds when an outcome is not a `MethodCall` error: it is a success, a
`Dbus` error, or a `NoDisplayDevice` error. -/
def notMethodCall {α : Type} : Except UPowerError α → Prop
  | .error (.MethodCall _) => False
  | _ => True

/-- Holds when an outcome is a success or a `Dbus` error: neither a
`MethodCall` nor a `NoDisplayDevice` error ever appears. -/
def onlyDbusErrors {α : Type} : Except UPowerError α → Prop
  | .error (.Dbus _) => True
  | .error _ => False
  | .ok _ => True

/-- A stub bus whose `GetDisplayDevice` reply carries no decodable object
path (the "no device" sentinel) and which rejects everything else. -/
def busNone : Bus := fun req =>
  if req.member = "GetDisplayDevice" then .ok [] else .error "no such object"

/-- A stub bus with a display device whose `Percentage` reads 73.5, whose
`Online` reads `false`, and whose root `OnBattery` reads `true`. -/
def busDisplay : Bus := fun req =>
  if req.member = "GetDisplayDevice" then
    .ok [.pathV "/org/freedesktop/UPower/devices/DisplayDevice"]
  else if req.member = "Percentage" then
    .ok [.doubleV (147 / 2)]
  else if req.member = "Online" then
    .ok [.boolV false]
  else if req.member = "OnBattery" then
    .ok [.boolV true]
  else
    .error "unknown"

/-- A stub bus on which every request fails with the same transport
error. -/
def busFail : Bus := fun _ => .error "disconnected"

/-! ## Query sessions

The source methods all take `&self`.  To make the frame property visible,
a query session threads the client record as explicit state: each step
reads the client, performs one operation, and returns the outcome together
with the requests issued. -/

/-- One public query of the client API. -/
inductive Query where
  | displayDevice
  | onBattery
  | percentage
  | energy
  | energyFull
  | online
  | percentageOf (path : String)
  | energyOf (path : String)
  | energyFullOf (path : String)
  | onlineOf (path : String)

/-- The typed outcome of one query. -/
inductive QueryOutcome where
  | pathR (p : Option String)
  | boolR (b : Bool)
  | doubleR (q : Rat)
  | err (e : UPowerError)
deriving DecidableEq

/-- Wraps an optional-path result as a query outcome. -/
def QueryOutcome.ofPath : Except UPowerError (Option String) → QueryOutcome
  | .ok p => .pathR p
  | .error e => .err e

/-- Wraps a boolean result as a query outcome. -/
def QueryOutcome.ofBool : Except UPowerError Bool → QueryOutcome
  | .ok b => .boolR b
  | .error e => .err e

/-- Wraps a double result as a query outcome. -/
def QueryOutcome.ofDouble : Except UPowerError Rat → QueryOutcome
  | .ok q => .doubleR q
  | .error e => .err e

/-- One step of a query session over the client state. -/
def UPower.runQuery : Query → StateM UPower (QueryOutcome × List BusRequest)
  | .displayDevice => do
    let u ← get
    pure (QueryOutcome.ofPath (u.get_display_device).1, (u.get_display_device).2)
  | .onBattery => do
    let u ← get
    pure (QueryOutcome.ofBool (u.on_battery).1, (u.on_battery).2)
  | .percentage => do
    let u ← get
    pure (QueryOutcome.ofDouble (u.get_percentage).1, (u.get_percentage).2)
  | .energy => do
    let u ← get
    pure (QueryOutcome.ofDouble (u.get_energy).1, (u.get_energy).2)
  | .energyFull => do
    let u ← get
    pure (QueryOutcome.ofDouble (u.get_energy_full).1, (u.get_energy_full).2)
  | .online => do
    let u ← get
    pure (QueryOutcome.ofBool (u.get_online).1, (u.get_online).2)
  | .percentageOf p => do
    let u ← get
    pure (QueryOutcome.ofDouble (u.get_percentage_of p).1, (u.get_percentage_of p).2)
  | .energyOf p => do
    let u ← get
    pure (QueryOutcome.ofDouble (u.get_energy_of p).1, (u.get_energy_of p).2)
  | .energyFullOf p => do
    let u ← get
    pure (QueryOutcome.ofDouble (u.get_energy_full_of p).1, (u.get_energy_full_of p).2)
  | .onlineOf p => do
    let u ← get
    pure (QueryOutcome.ofBool (u.get_online_of p).1, (u.get_online_of p).2)

/-! ## Characterization lemmas -/

/-- Constructing the `GetDisplayDevice` method call from the literal names
in the source always succeeds. -/
theorem new_method_call_gdd :
    Message.new_method_call "org.freedesktop.UPower" "/org/freedesktop/UPower"
      "org.freedesktop.UPower" "GetDisplayDevice" =
    Except.ok ⟨"org.freedesktop.UPower", "/org/freedesktop/UPower",
      "org.freedesktop.UPower", "GetDisplayDevice"⟩ := rfl

/-- `get_display_device` issues exactly the `GetDisplayDevice` request. -/
theorem gdd_log (u : UPower) :
    (u.get_display_device).2 = [gddReq u.timeout] := by
  unfold UPower.get_display_device
  rw [new_method_call_gdd]
  dsimp only [Connection.send_with_reply_and_block]
  cases u.connection ⟨"org.freedesktop.UPower", "/org/freedesktop/UPower",
    "org.freedesktop.UPower", "GetDisplayDevice", u.timeout⟩ <;> rfl

/-- On an error reply to `GetDisplayDevice`, resolution fails with the
`Dbus` variant wrapping the transport error. -/
theorem gdd_err (u : UPower) (why : String)
    (h : u.connection (gddReq u.timeout) = .error why) :
    u.get_display_device = (.error (.Dbus why), [gddReq u.timeout]) := by
  unfold UPower.get_display_device
  rw [new_method_call_gdd]
  dsimp only [Connection.send_with_reply_and_block]
  unfold gddReq at h
  rw [h]
  rfl

/-- On a successful reply to `GetDisplayDevice`, resolution returns the
decoded optional path. -/
theorem gdd_ok (u : UPower) (args : List DbusValue)
    (h : u.connection (gddReq u.timeout) = .ok args) :
    u.get_display_device = (.ok (Message.get1Path args), [gddReq u.timeout]) := by
  unfold UPower.get_display_device
  rw [new_method_call_gdd]
  dsimp only [Connection.send_with_reply_and_block]
  unfold gddReq at h
  rw [h]
  rfl

/-- The converted outcome of any dbus result is never a `MethodCall` or a
`NoDisplayDevice` error. -/
theorem mapDbus_onlyDbus {α : Type} (e : Except String α) :
    onlyDbusErrors (mapDbus e) := by
  cases e <;> trivial

/-- The converted outcome of any dbus result is never a `MethodCall`
error. -/
theorem mapDbus_notMethodCall {α : Type} (e : Except String α) :
    notMethodCall (mapDbus e) := by
  cases e <;> trivial

/-- Display-device resolution never produces a `MethodCall` error: the
method call is built from the source's valid literal names. -/
theorem gdd_notMethodCall (u : UPower) :
    notMethodCall (u.get_display_device).1 := by
  cases hc : u.connection (gddReq u.timeout) with
  | error why => rw [gdd_err u why hc]; trivial
  | ok args => rw [gdd_ok u args hc]; trivial

/-- When resolution yields no device, the double-typed `dev` arm fails
with `NoDisplayDevice`. -/
theorem dev_double_none (u : UPower) (prop : String)
    (h : (u.get_display_device).1 = .ok none) :
    (u.device_property_dev_double prop).1 = .error .NoDisplayDevice := by
  unfold UPower.device_property_dev_double
  dsimp only
  rw [h]

/-- When resolution yields no device, the boolean-typed `dev` arm fails
with `NoDisplayDevice`. -/
theorem dev_bool_none (u : UPower) (prop : String)
    (h : (u.get_display_device).1 = .ok none) :
    (u.device_property_dev_bool prop).1 = .error .NoDisplayDevice := by
  unfold UPower.device_property_dev_bool
  dsimp only
  rw [h]

/-- When resolution yields a device, the double-typed `dev` arm returns
the property read from that device path. -/
theorem dev_double_some (u : UPower) (prop d : String)
    (h : (u.get_display_device).1 = .ok (some d)) :
    (u.device_property_dev_double prop).1 =
      mapDbus ((u.connection_path d).getDouble
        "org.freedesktop.UPower.Device" prop).1 := by
  unfold UPower.device_property_dev_double
  dsimp only
  rw [h]

/-- When resolution yields a device, the boolean-typed `dev` arm returns
the property read from that device path. -/
theorem dev_bool_some (u : UPower) (prop d : String)
    (h : (u.get_display_device).1 = .ok (some d)) :
    (u.device_property_dev_bool prop).1 =
      mapDbus ((u.connection_path d).getBool
        "org.freedesktop.UPower.Device" prop).1 := by
  unfold UPower.device_property_dev_bool
  dsimp only
  rw [h]

/-- The double-typed `dev` arm never produces a `MethodCall` error. -/
theorem dev_double_notMethodCall (u : UPower) (prop : String) :
    notMethodCall (u.device_property_dev_double prop).1 := by
  unfold UPower.device_property_dev_double
  dsimp only
  cases hg : (u.get_display_device).1 with
  | error e =>
    have hnm := gdd_notMethodCall u
    rw [hg] at hnm
    cases e with
    | MethodCall w => exact hnm.elim
    | Dbus w => trivial
    | NoDisplayDevice => trivial
  | ok op =>
    cases op with
    | none => trivial
    | some d => exact mapDbus_notMethodCall _

/-- The boolean-typed `dev` arm never produces a `MethodCall` error. -/
theorem dev_bool_notMethodCall (u : UPower) (prop : String) :
    notMethodCall (u.device_property_dev_bool prop).1 := by
  unfold UPower.device_property_dev_bool
  dsimp only
  cases hg : (u.get_display_device).1 with
  | error e =>
    have hnm := gdd_notMethodCall u
    rw [hg] at hnm
    cases e with
    | MethodCall w => exact hnm.elim
    | Dbus w => trivial
    | NoDisplayDevice => trivial
  | ok op =>
    cases op with
    | none => trivial
    | some d => exact mapDbus_notMethodCall _

/-- The double-typed `dev` arm issues at most two requests. -/
theorem dev_double_log_le (u : UPower) (prop : String) :
    (u.device_property_dev_double prop).2.length ≤ 2 := by
  unfold UPower.device_property_dev_double
  dsimp only
  cases hg : (u.get_display_device).1 with
  | error e => simp [gdd_log]
  | ok op =>
    cases op with
    | none => simp [gdd_log]
    | some d => simp [gdd_log, ConnPath.getDouble]

/-- The boolean-typed `dev` arm issues at most two requests. -/
theorem dev_bool_log_le (u : UPower) (prop : String) :
    (u.device_property_dev_bool prop).2.length ≤ 2 := by
  unfold UPower.device_property_dev_bool
  dsimp only
  cases hg : (u.get_display_device).1 with
  | error e => simp [gdd_log]
  | ok op =>
    cases op with
    | none => simp [gdd_log]
    | some d => simp [gdd_log, ConnPath.getBool]

/-- Every request issued by the double-typed `dev` arm carries the
client's stored timeout. -/
theorem dev_double_timeouts (u : UPower) (prop : String) :
    ((u.device_property_dev_double prop).2.all
      fun r => r.timeout == u.timeout) = true := by
  unfold UPower.device_property_dev_double
  dsimp only
  cases hg : (u.get_display_device).1 with
  | error e => simp [gdd_log, gddReq]
  | ok op =>
    cases op with
    | none => simp [gdd_log, gddReq]
    | some d => simp [gdd_log, gddReq, ConnPath.getDouble, UPower.connection_path]

/-- Every request issued by the boolean-typed `dev` arm carries the
client's stored timeout. -/
theorem dev_bool_timeouts (u : UPower) (prop : String) :
    ((u.device_property_dev_bool prop).2.all
      fun r => r.timeout == u.timeout) = true := by
  unfold UPower.device_property_dev_bool
  dsimp only
  cases hg : (u.get_display_device).1 with
  | error e => simp [gdd_log, gddReq]
  | ok op =>
    cases op with
    | none => simp [gdd_log, gddReq]
    | some d => simp [gdd_log, gddReq, ConnPath.getBool, UPower.connection_path]

/-- Running one query never changes the threaded client state. -/
theorem runQuery_fix (q : Query) (u : UPower) :
    ((UPower.runQuery q).run u).2 = u := by
  cases q <;> rfl

/-! ## Claims -/

/-- C1.  The claim as stated fails on the code: the error enum has three
kinds, not four, and a failure to establish the connection in
`UPower::new` is reported through `From<dbus::Error>` as the `Dbus`
variant — the very same kind (here even the same value) as a transport
failure during a later `on_battery` query. -/
theorem C1_counterexample :
    UPower.new (.error "disconnected") 1000 = .error (.Dbus "disconnected") ∧
    (UPower.on_battery ⟨busFail, 1000⟩).1 = .error (.Dbus "disconnected") :=
  ⟨rfl, rfl⟩

/-- C1 (amended).  Errors surfaced by the library form three distinct
kinds — `MethodCall` (a request message could not be constructed), `Dbus`
(any underlying dbus failure: connection establishment, error reply,
timeout, or undecodable reply, wrapped as a string), and
`NoDisplayDevice` — and a failure to establish the connection in
`new(timeout)` is reported with the same `Dbus` kind as a transport
failure during a later query; construction fails outright, returning no
partial client. -/
theorem C1_amended (why : String) (t : Int) (b : Bus) :
    UPower.new (.error why) t = .error (.Dbus why) ∧
    UPower.new (.ok b) t = .ok ⟨b, t⟩ ∧
    (∀ e : UPowerError, (∃ w, e = .MethodCall w) ∨ (∃ w, e = .Dbus w) ∨
      e = .NoDisplayDevice) ∧
    (UPower.on_battery ⟨fun _ => .error why, t⟩).1 = .error (.Dbus why) := by
  refine ⟨rfl, rfl, ?_, rfl⟩
  intro e
  cases e with
  | MethodCall w => exact .inl ⟨w, rfl⟩
  | Dbus w => exact .inr (.inl ⟨w, rfl⟩)
  | NoDisplayDevice => exact .inr (.inr rfl)

/-- C4.  `on_battery` issues exactly one request: the `OnBattery` property
read on the root UPower object (so it never resolves a device); when the
bus reports the boolean `b` it returns `Ok b` unchanged, and its failures
are only ever of the `Dbus` kind — never `NoDisplayDevice`. -/
theorem C4_on_battery (u : UPower) :
    (u.on_battery).2 = [onBatteryReq u.timeout] ∧
    (∀ b : Bool, u.connection (onBatteryReq u.timeout) = .ok [.boolV b] →
      (u.on_battery).1 = .ok b) ∧
    onlyDbusErrors (u.on_battery).1 := by
  refine ⟨rfl, ?_, mapDbus_onlyDbus
    ((u.connection_path "/org/freedesktop/UPower").getBool
      "org.freedesktop.UPower" "OnBattery").1⟩
  intro b h
  unfold UPower.on_battery ConnPath.getBool UPower.connection_path
  dsimp only
  unfold onBatteryReq at h
  rw [h]
  rfl

/-- C4 witness: on the stub bus whose root object reports
`OnBattery = true`, `on_battery` returns `Ok true`. -/
theorem C4_witness :
    (UPower.on_battery ⟨busDisplay, 1000⟩).1 = .ok true :=
  (C4_on_battery ⟨busDisplay, 1000⟩).2.1 true rfl

/-- C5.  Each path-qualified getter is exactly one direct property read at
the caller-supplied path (no display-device resolution request is ever
issued), its value is the decoded reply passed through `From<dbus::Error>`
(so an invalid path, an absent property or a wrongly typed property
surface as `Dbus` transport errors), and it never returns `MethodCall` or
`NoDisplayDevice`. -/
theorem C5_path_getters (u : UPower) (p : String) :
    u.get_percentage_of p =
      (mapDbus ((u.connection_path p).getDouble
        "org.freedesktop.UPower.Device" "Percentage").1,
       [devPropReq p "Percentage" u.timeout]) ∧
    u.get_energy_of p =
      (mapDbus ((u.connection_path p).getDouble
        "org.freedesktop.UPower.Device" "Energy").1,
       [devPropReq p "Energy" u.timeout]) ∧
    u.get_energy_full_of p =
      (mapDbus ((u.connection_path p).getDouble
        "org.freedesktop.UPower.Device" "EnergyFull").1,
       [devPropReq p "EnergyFull" u.timeout]) ∧
    u.get_online_of p =
      (mapDbus ((u.connection_path p).getBool
        "org.freedesktop.UPower.Device" "Online").1,
       [devPropReq p "Online" u.timeout]) ∧
    onlyDbusErrors (u.get_percentage_of p).1 ∧
    onlyDbusErrors (u.get_energy_of p).1 ∧
    onlyDbusErrors (u.get_energy_full_of p).1 ∧
    onlyDbusErrors (u.get_online_of p).1 :=
  ⟨rfl, rfl, rfl, rfl,
   mapDbus_onlyDbus _, mapDbus_onlyDbus _, mapDbus_onlyDbus _, mapDbus_onlyDbus _⟩

/-- C9.  `on_battery` and the four path-qualified getters can only ever
fail with the `Dbus` variant (never `MethodCall`, never
`NoDisplayDevice`); display-device resolution — and with it the four
no-argument getters, whose only request construction happens inside it —
never produces a `MethodCall` error either, the method call being built
from the source's valid literal names. -/
theorem C9_method_call_reach (u : UPower) (p : String) :
    onlyDbusErrors (u.on_battery).1 ∧
    onlyDbusErrors (u.get_percentage_of p).1 ∧
    onlyDbusErrors (u.get_energy_of p).1 ∧
    onlyDbusErrors (u.get_energy_full_of p).1 ∧
    onlyDbusErrors (u.get_online_of p).1 ∧
    notMethodCall (u.get_display_device).1 ∧
    notMethodCall (u.get_percentage).1 ∧
    notMethodCall (u.get_energy).1 ∧
    notMethodCall (u.get_energy_full).1 ∧
    notMethodCall (u.get_online).1 := by
  refine ⟨mapDbus_onlyDbus _, mapDbus_onlyDbus _, mapDbus_onlyDbus _,
    mapDbus_onlyDbus _, mapDbus_onlyDbus _, gdd_notMethodCall u, ?_, ?_, ?_, ?_⟩
  · exact dev_double_notMethodCall u "Percentage"
  · exact dev_double_notMethodCall u "Energy"
  · exact dev_double_notMethodCall u "EnergyFull"
  · exact dev_bool_notMethodCall u "Online"

/-- C2.  Each no-argument getter first resolves the display device: when
resolution yields `None` it returns the `NoDisplayDevice` error (no
default value), and when resolution yields a device path it returns the
correspondingly named property read from that path, typed double or
boolean. -/
theorem C2_noarg_getters (u : UPower) :
    ((u.get_display_device).1 = .ok none →
      (u.get_percentage).1 = .error .NoDisplayDevice ∧
      (u.get_energy).1 = .error .NoDisplayDevice ∧
      (u.get_energy_full).1 = .error .NoDisplayDevice ∧
      (u.get_online).1 = .error .NoDisplayDevice) ∧
    (∀ d : String, (u.get_display_device).1 = .ok (some d) →
      (u.get_percentage).1 = mapDbus ((u.connection_path d).getDouble
        "org.freedesktop.UPower.Device" "Percentage").1 ∧
      (u.get_energy).1 = mapDbus ((u.connection_path d).getDouble
        "org.freedesktop.UPower.Device" "Energy").1 ∧
      (u.get_energy_full).1 = mapDbus ((u.connection_path d).getDouble
        "org.freedesktop.UPower.Device" "EnergyFull").1 ∧
      (u.get_online).1 = mapDbus ((u.connection_path d).getBool
        "org.freedesktop.UPower.Device" "Online").1) := by
  constructor
  · intro h
    exact ⟨dev_double_none u "Percentage" h, dev_double_none u "Energy" h,
      dev_double_none u "EnergyFull" h, dev_bool_none u "Online" h⟩
  · intro d h
    exact ⟨dev_double_some u "Percentage" d h, dev_double_some u "Energy" d h,
      dev_double_some u "EnergyFull" d h, dev_bool_some u "Online" d h⟩

/-- C2 witness: on the no-device stub bus `get_percentage` fails with
`NoDisplayDevice`; on the display-device stub bus `get_online` reads the
`Online` property from the resolved device path. -/
theorem C2_witness :
    (UPower.get_percentage ⟨busNone, 1000⟩).1 = .error .NoDisplayDevice ∧
    (UPower.get_online ⟨busDisplay, 1000⟩).1 =
      mapDbus (((UPower.mk busDisplay 1000).connection_path
        "/org/freedesktop/UPower/devices/DisplayDevice").getBool
        "org.freedesktop.UPower.Device" "Online").1 :=
  ⟨((C2_noarg_getters ⟨busNone, 1000⟩).1 rfl).1,
   ((C2_noarg_getters ⟨busDisplay, 1000⟩).2
     "/org/freedesktop/UPower/devices/DisplayDevice" rfl).2.2.2⟩

/-- C3.  When the `GetDisplayDevice` reply carries no decodable object
path (the service's "no device" sentinel outcome), `get_display_device`
returns `Ok None` — a success, not a transport failure — and every
no-argument property getter then fails with `NoDisplayDevice`. -/
theorem C3_no_device_sentinel (u : UPower) (args : List DbusValue)
    (hreply : u.connection (gddReq u.timeout) = .ok args)
    (hnopath : Message.get1Path args = none) :
    (u.get_display_device).1 = .ok none ∧
    (u.get_percentage).1 = .error .NoDisplayDevice ∧
    (u.get_energy).1 = .error .NoDisplayDevice ∧
    (u.get_energy_full).1 = .error .NoDisplayDevice ∧
    (u.get_online).1 = .error .NoDisplayDevice := by
  have h1 : (u.get_display_device).1 = .ok none := by
    rw [gdd_ok u args hreply]
    dsimp only
    rw [hnopath]
  exact ⟨h1, dev_double_none u "Percentage" h1, dev_double_none u "Energy" h1,
    dev_double_none u "EnergyFull" h1, dev_bool_none u "Online" h1⟩

/-- C3 witness: the no-device stub bus replies to `GetDisplayDevice` with
an empty argument list, and each getter behaves as claimed. -/
theorem C3_witness :
    ((UPower.mk busNone 1000).get_display_device).1 = .ok none ∧
    (UPower.get_percentage ⟨busNone, 1000⟩).1 = .error .NoDisplayDevice ∧
    (UPower.get_energy ⟨busNone, 1000⟩).1 = .error .NoDisplayDevice ∧
    (UPower.get_energy_full ⟨busNone, 1000⟩).1 = .error .NoDisplayDevice ∧
    (UPower.get_online ⟨busNone, 1000⟩).1 = .error .NoDisplayDevice :=
  C3_no_device_sentinel ⟨busNone, 1000⟩ [] rfl rfl

/-- C6.  The claim as stated fails on the code: a no-argument getter is
not a single round trip.  On the display-device stub bus,
`get_percentage` issues two requests — the `GetDisplayDevice` resolution
call followed by the `Percentage` property read. -/
theorem C6_counterexample :
    (UPower.get_percentage ⟨busDisplay, 1000⟩).2 =
      [gddReq 1000,
       devPropReq "/org/freedesktop/UPower/devices/DisplayDevice"
         "Percentage" 1000] := rfl

/-- C6 (amended).  `get_display_device`, `on_battery` and the four
path-qualified getters each issue exactly one request; the four
no-argument getters issue at most two (the resolution call, then the
property read), every request/response being a blocking round trip at the
stored timeout. -/
theorem C6_amended (u : UPower) (p : String) :
    (u.get_display_device).2.length = 1 ∧
    (u.on_battery).2.length = 1 ∧
    (u.get_percentage_of p).2.length = 1 ∧
    (u.get_energy_of p).2.length = 1 ∧
    (u.get_energy_full_of p).2.length = 1 ∧
    (u.get_online_of p).2.length = 1 ∧
    (u.get_percentage).2.length ≤ 2 ∧
    (u.get_energy).2.length ≤ 2 ∧
    (u.get_energy_full).2.length ≤ 2 ∧
    (u.get_online).2.length ≤ 2 := by
  refine ⟨?_, rfl, rfl, rfl, rfl, rfl, dev_double_log_le u "Percentage",
    dev_double_log_le u "Energy", dev_double_log_le u "EnergyFull",
    dev_bool_log_le u "Online"⟩
  rw [gdd_log]
  rfl

/-- C7.  Property values pass through exactly as reported: when the
resolved display device's `Percentage` property reads the double `q`,
`get_percentage` returns `Ok q` with no computation, rounding or
clamping. -/
theorem C7_pass_through (u : UPower) (d : String) (q : Rat)
    (h1 : (u.get_display_device).1 = .ok (some d))
    (h2 : u.connection (devPropReq d "Percentage" u.timeout) =
      .ok [.doubleV q]) :
    (u.get_percentage).1 = .ok q := by
  have hs := dev_double_some u "Percentage" d h1
  show (u.device_property_dev_double "Percentage").1 = .ok q
  rw [hs]
  unfold ConnPath.getDouble UPower.connection_path
  dsimp only
  unfold devPropReq at h2
  rw [h2]
  rfl

/-- C7 witness: on the stub bus whose display device reports
`Percentage = 73.5`, `get_percentage` returns exactly `Ok 73.5`. -/
theorem C7_witness :
    (UPower.get_percentage ⟨busDisplay, 1000⟩).1 = .ok ((147 : Rat) / 2) :=
  C7_pass_through ⟨busDisplay, 1000⟩
    "/org/freedesktop/UPower/devices/DisplayDevice" ((147 : Rat) / 2) rfl rfl

/-- C8.  Every request issued through the client — the display-device
method call and every property read, by every operation — carries the
timeout stored at construction; no operation takes a different one. -/
theorem C8_uniform_timeout (u : UPower) (p : String) :
    ((u.get_display_device).2.all fun r => r.timeout == u.timeout) = true ∧
    ((u.on_battery).2.all fun r => r.timeout == u.timeout) = true ∧
    ((u.get_percentage_of p).2.all fun r => r.timeout == u.timeout) = true ∧
    ((u.get_energy_of p).2.all fun r => r.timeout == u.timeout) = true ∧
    ((u.get_energy_full_of p).2.all fun r => r.timeout == u.timeout) = true ∧
    ((u.get_online_of p).2.all fun r => r.timeout == u.timeout) = true ∧
    ((u.get_percentage).2.all fun r => r.timeout == u.timeout) = true ∧
    ((u.get_energy).2.all fun r => r.timeout == u.timeout) = true ∧
    ((u.get_energy_full).2.all fun r => r.timeout == u.timeout) = true ∧
    ((u.get_online).2.all fun r => r.timeout == u.timeout) = true := by
  refine ⟨?_, ?_, ?_, ?_, ?_, ?_, dev_double_timeouts u "Percentage",
    dev_double_timeouts u "Energy", dev_double_timeouts u "EnergyFull",
    dev_bool_timeouts u "Online"⟩
  · rw [gdd_log]
    simp [gddReq]
  · show ([onBatteryReq u.timeout].all fun r => r.timeout == u.timeout) = true
    simp [onBatteryReq]
  · show ([devPropReq p "Percentage" u.timeout].all
      fun r => r.timeout == u.timeout) = true
    simp [devPropReq]
  · show ([devPropReq p "Energy" u.timeout].all
      fun r => r.timeout == u.timeout) = true
    simp [devPropReq]
  · show ([devPropReq p "EnergyFull" u.timeout].all
      fun r => r.timeout == u.timeout) = true
    simp [devPropReq]
  · show ([devPropReq p "Online" u.timeout].all
      fun r => r.timeout == u.timeout) = true
    simp [devPropReq]

/-- C10.  The client is immutable after construction: running any query
leaves the stored connection and timeout unchanged (the methods take the
client by shared reference), so a subsequent query on the same client
gives exactly the outcome it would give on a fresh copy — further queries
remain possible after any error. -/
theorem C10_immutable (u : UPower) (q q2 : Query) :
    (((UPower.runQuery q).run u).2).connection = u.connection ∧
    (((UPower.runQuery q).run u).2).timeout = u.timeout ∧
    ((UPower.runQuery q2).run ((UPower.runQuery q).run u).2).1 =
      ((UPower.runQuery q2).run u).1 := by
  refine ⟨?_, ?_, ?_⟩ <;> rw [runQuery_fix]
